import Mathlib

/-!
Verification of the alidock container-lifecycle tool (`src/alidock/__init__.py`)
against its natural-language specification.

The Python module is shallowly embedded below. Conventions:

* machine state that the Python code reads/writes through the OS (the
  timestamp files, the Docker daemon) is passed explicitly;
* the Docker client is modelled as an oracle `String → Except DockerError
  Container` (what `self.cli.containers.get(name)` answers for each name),
  and, where claims speak about the mutable set of containers, as an
  association list of containers keyed by name;
* Python exceptions become `Except`; `AliDockError(msg)` carries its message;
* `os.path.join` is embedded as `pathJoin`;
* timestamps are `Int` (Python ints); `int(time())` is a parameter `now`.
-/

namespace Alidock

/-- Python `AliDockError`: the tool's domain error, carrying a message. -/
structure AliDockError where
  msg : String
deriving DecidableEq, Repr

/-- Errors a `docker` client call can produce: `docker.errors.NotFound`,
`docker.errors.APIError` and a `requests` connectivity failure. -/
inductive DockerError where
  | notFound
  | apiError (msg : String)
  | requestError (msg : String)
deriving DecidableEq, Repr

/-- Rendering `str(exc)` for a docker error (used when it is interpolated
into an `AliDockError` message). -/
def DockerError.str : DockerError → String
  | .notFound => "container not found"
  | .apiError m => m
  | .requestError m => m

/-- An error escaping one of the embedded operations: either the tool's own
`AliDockError` or an uncaught docker error. -/
inductive Err where
  | aliDock (e : AliDockError)
  | docker (e : DockerError)
deriving DecidableEq, Repr

/-- `os.path.join(a, b)` for two components. -/
def pathJoin (a b : String) : String :=
  if b.startsWith "/" then b
  else if a = "" then b
  else if a.endsWith "/" then a ++ b
  else a ++ "/" ++ b

/-- The configuration record `self.conf` (keys of the `self.conf` dict). -/
structure Conf where
  dockName : String
  imageName : String
  dirOutside : String
  updatePeriod : Int
  dontUpdateImage : Bool
deriving DecidableEq, Repr

/-- The built-in defaults assigned to `self.conf` in `AliDock.__init__`. -/
def defaultConf : Conf :=
  { dockName := "alidock"
    imageName := "alisw/alidock:latest"
    dirOutside := "~/alidock"
    updatePeriod := 43200
    dontUpdateImage := false }

/-- The known keys an on-disk `~/.alidock-config.yaml` mapping may set;
`none` means the key is absent from the file. -/
structure FileConf where
  dockName : Option String
  imageName : Option String
  dirOutside : Option String
  updatePeriod : Option Int
  dontUpdateImage : Option Bool
deriving DecidableEq, Repr

/-- The observable state of the configuration file: unreadable
(`OSError`/`IOError`), present but not a YAML mapping (`YAMLError` or
`AttributeError` on `.get`), or a mapping. -/
inductive ConfFile where
  | unreadable
  | malformed
  | mapping (f : FileConf)
deriving DecidableEq, Repr

/-- `AliDock.parseConfig`: `self.conf[k] = confOverride.get(k, self.conf[k])`
for each known key; any read/parse error leaves the defaults untouched. -/
def parseConfig (conf : Conf) (file : ConfFile) : Conf :=
  match file with
  | .unreadable => conf
  | .malformed => conf
  | .mapping f =>
    { dockName := f.dockName.getD conf.dockName
      imageName := f.imageName.getD conf.imageName
      dirOutside := f.dirOutside.getD conf.dirOutside
      updatePeriod := f.updatePeriod.getD conf.updatePeriod
      dontUpdateImage := f.dontUpdateImage.getD conf.dontUpdateImage }

/-- A caller-supplied override record (`overrideConf`); each known key is
either absent/null (`none`) or present with a value (`some v`). Unknown keys
are not represented: `overrideConfig` iterates over the keys of `self.conf`
only, so unknown keys in the record are ignored by construction. -/
structure OverrideConf where
  dockName : Option String
  imageName : Option String
  dirOutside : Option String
  updatePeriod : Option Int
  dontUpdateImage : Option Bool
deriving DecidableEq, Repr

/-- `AliDock.overrideConfig`: for each known key `k`, when
`override.get(k) is not None` set `self.conf[k] = override[k]`; a falsy
(`None`) whole record is a no-op. -/
def overrideConfig (conf : Conf) (override : Option OverrideConf) : Conf :=
  match override with
  | none => conf
  | some o =>
    { dockName := o.dockName.getD conf.dockName
      imageName := o.imageName.getD conf.imageName
      dirOutside := o.dirOutside.getD conf.dirOutside
      updatePeriod := o.updatePeriod.getD conf.updatePeriod
      dontUpdateImage := o.dontUpdateImage.getD conf.dontUpdateImage }

/-- The parsed command-line arguments built by `entrypoint` that name
configuration keys. `argparse` gives `--name`, `--image`, `--shared` and
`--update-period` the default `None`, while `--no-update-image` is a `store_true` flag whose
default is `False` — so in `args.__dict__` the `dontUpdateImage` entry is
always a (non-null) boolean. -/
structure CliArgs where
  dockName : Option String
  imageName : Option String
  dirOutside : Option String
  updatePeriod : Option Int
  dontUpdateImage : Bool
deriving DecidableEq, Repr

/-- The override record `args.__dict__` that `processActions` hands to
`AliDock(args.__dict__)`: the four `default=None` options as given, and the
`store_true` flag always present as a boolean. -/
def cliOverride (a : CliArgs) : OverrideConf :=
  { dockName := a.dockName
    imageName := a.imageName
    dirOutside := a.dirOutside
    updatePeriod := a.updatePeriod
    dontUpdateImage := some a.dontUpdateImage }

/-- The configuration part of `AliDock.__init__`: defaults, then the
config file, then the override record, then the `-<uid>` suffix on the
container name. -/
def initConf (file : ConfFile) (override : Option OverrideConf) (uid : Nat) : Conf :=
  let c := overrideConfig (parseConfig defaultConf file) override
  { c with dockName := c.dockName ++ "-" ++ toString uid }

/-! ## The update checker (`AliDock.hasUpdates`) -/

/-- Observable state of the last-check timestamp file: missing
(`IOError`/`OSError` on `open`), present but not parseable by `int()`
(`ValueError`), or holding `str(n)` for a timestamp `n`. -/
inductive FileContent where
  | missing
  | unparseable (raw : String)
  | timestamp (n : Int)
deriving DecidableEq, Repr

/-- Reading `lastUpdate` in `hasUpdates`: `int(open(tsFn).read())` with any
`IOError`/`OSError`/`ValueError` handled by `lastUpdate = 0`. -/
def readTimestamp : FileContent → Int
  | .missing => 0
  | .unparseable _ => 0
  | .timestamp n => n

deriving instance DecidableEq for Except

/-- Everything observable about one `hasUpdates` call: the state of the
timestamp file afterwards, the returned value or raised error, and how many
times `updateFunc` was invoked. -/
structure HasUpdatesResult where
  newFile : FileContent
  result : Except AliDockError Bool
  checkInvocations : Nat
deriving DecidableEq, Repr

/-- `AliDock.hasUpdates(stateFileRelative, updatePeriod, nagOnUpdate,
updateFunc)`. `file` is the current content of the timestamp file, `now` is
`int(time())`, and `updateFunc` is the single outcome the check function
would produce if invoked (it either returns a boolean or raises an
`AliDockError`; that is the only exception type the `except` clause
catches, and both instantiations in the source wrap all their failures in
`AliDockError`). The body mirrors the source: read `lastUpdate` (failures →
0); if `now - lastUpdate > updatePeriod`, run `updateFunc` capturing an
`AliDockError`, then `if not nagOnUpdate` rewrite the file with `str(now)`,
then re-raise the captured error if any; otherwise skip everything and
return `False`. -/
def hasUpdates (file : FileContent) (now updatePeriod : Int) (nagOnUpdate : Bool)
    (updateFunc : Except AliDockError Bool) : HasUpdatesResult :=
  let lastUpdate := readTimestamp file
  if now - lastUpdate > updatePeriod then
    let caught : Option AliDockError :=
      match updateFunc with
      | .error e => some e
      | .ok _ => none
    let updateAvail : Bool :=
      match updateFunc with
      | .error _ => false
      | .ok b => b
    let newFile : FileContent :=
      if !nagOnUpdate then .timestamp now else file
    match caught with
    | some e => ⟨newFile, .error e, 1⟩
    | none => ⟨newFile, .ok updateAvail, 1⟩
  else
    ⟨file, .ok false, 0⟩

/-! ## The container lifecycle controller -/

/-- What the embedding keeps of a container object returned by
`self.cli.containers.get(...)`: the host port published for container port
22, i.e. `attrs["NetworkSettings"]["Ports"]["22/tcp"][0]["HostPort"]`
(a string in the Docker API); `none` when that `"22/tcp"` mapping is
absent (the `KeyError` case). -/
structure Container where
  sshHostPort : Option String
deriving DecidableEq, Repr

/-- The Docker daemon as an oracle: what `self.cli.containers.get(name)`
answers for each container name. -/
def DockerCli := String → Except DockerError Container

/-- `AliDock.isRunning`: `containers.get(dockName)`; `NotFound` → `False`,
success → `True`, any other error propagates. -/
def isRunning (cli : DockerCli) (dockName : String) : Except DockerError Bool :=
  match cli dockName with
  | .error .notFound => .ok false
  | .error e => .error e
  | .ok _ => .ok true

/-- `self.logRelative` assigned in `AliDock.__init__`. -/
def logRelative : String := ".alidock.log"

/-- The `AliDockError` message raised by `getSshCommand` when the container
or its port mapping cannot be found, with
`outLog = os.path.join(self.conf["dirOutside"], self.logRelative)` and
`msg = str(exc)`. The grouping of the appends keeps the log path as one
standalone segment. -/
def sshUnavailableMsg (conf : Conf) (excMsg : String) : String :=
  "cannot find container, maybe it did not start up properly: check log file "
    ++ (pathJoin conf.dirOutside logRelative
    ++ (" for details. Error: " ++ excMsg))

/-- The fixed SSH argv built by `getSshCommand` once the host port is
resolved; `str(sshPort)` is `port` (already a string in the Docker attrs). -/
def sshArgv (conf : Conf) (port : String) : List String :=
  ["ssh", "localhost", "-p", port, "-Y", "-F/dev/null",
   "-oForwardX11Trusted=no", "-oUserKnownHostsFile=/dev/null", "-oLogLevel=QUIET",
   "-oStrictHostKeyChecking=no", "-oForwardX11Timeout=596h",
   "-i", pathJoin (pathJoin conf.dirOutside ".ssh") "id_rsa"]

/-- `AliDock.getSshCommand`: resolve the published SSH port; `NotFound` or
`KeyError` become an `AliDockError` naming the log file; any other docker
error is not caught and propagates. The `str(exc)` of a Python `KeyError`
on a missing dict key k is `"'k'"`. -/
def getSshCommand (cli : DockerCli) (conf : Conf) : Except Err (List String) :=
  match cli conf.dockName with
  | .error .notFound =>
    .error (.aliDock ⟨sshUnavailableMsg conf DockerError.notFound.str⟩)
  | .error e => .error (.docker e)
  | .ok c =>
    match c.sshHostPort with
    | none => .error (.aliDock ⟨sshUnavailableMsg conf "\x272\x32/tcp\x27"⟩)
    | some port => .ok (sshArgv conf port)

/-- One `subprocess.check_call(... + ["-T", "/bin/true"])` outcome per loop
iteration of `waitSshUp`: `true` when the call succeeds, `false` when it
raises `CalledProcessError` (after which the code sleeps 0.5 s; the sleep
has no other observable effect and is not modelled). -/
def Attempts := Nat → Bool

/-- The `for _ in range(0, 40)` loop of `waitSshUp`, starting at iteration
`i` with `fuel` iterations left. Each iteration recomputes
`getSshCommand()` (whose `AliDockError` would propagate out of the loop)
and tries the probe command. Returns the boolean result together with the
number of probe attempts actually made. -/
def waitSshUpLoop (cli : DockerCli) (conf : Conf) (attempts : Attempts) :
    Nat → Nat → Except Err (Bool × Nat)
  | _, 0 => .ok (false, 0)
  | i, fuel + 1 =>
    match getSshCommand cli conf with
    | .error e => .error e
    | .ok _ =>
      if attempts i then .ok (true, 1)
      else
        match waitSshUpLoop cli conf attempts (i + 1) fuel with
        | .error e => .error e
        | .ok (b, n) => .ok (b, n + 1)

/-- `AliDock.waitSshUp`: up to 40 probe attempts; `True` on the first
success, `False` after exhausting all 40. -/
def waitSshUp (cli : DockerCli) (conf : Conf) (attempts : Attempts) :
    Except Err (Bool × Nat) :=
  waitSshUpLoop cli conf attempts 0 40

/-- A terminal observable action of the dispatcher. -/
inductive FinalOp where
  | execReplace (prog : String) (argv : List String)
  | alreadyRunningInfo
deriving DecidableEq, Repr

/-- `AliDock.shell(cmd)`: `os.execvp("ssh", self.getSshCommand() + cmd)`;
an `AliDockError` from `getSshCommand` propagates. -/
def shell (cli : DockerCli) (conf : Conf) (cmd : List String) :
    Except Err FinalOp :=
  match getSshCommand cli conf with
  | .error e => .error e
  | .ok argv => .ok (.execReplace "ssh" (argv ++ cmd))

/-- `AliDock.rootShell`. -/
def rootShell (conf : Conf) : FinalOp :=
  .execReplace "docker" ["docker", "exec", "-it", conf.dockName, "/bin/bash"]

/-- The fields of the parsed arguments consulted by the dispatch part of
`processEnterStart` (lines 304-325): the action, the two tmux flags and the
trailing command for `exec`. -/
structure Args where
  action : String
  tmux : Bool
  tmuxControl : Bool
  shellCmd : List String
deriving DecidableEq, Repr

/-- The dispatch part of `processEnterStart` (source lines 304-325), i.e.
the code it runs once the creation guard `if not aliDock.isRunning()` has
found the container already running (`created = False`). `tmuxEnv` is
`os.environ.get("TMUX")`. For `enter`: build the tmux command (or raise
`AliDockError("already in a tmux session")`), call `waitSshUp()` with its
result discarded, then `shell(cmd)`. For `exec`: `waitSshUp()` discarded,
then `shell(["-t"] + shellCmd)`. For `root`: `rootShell()`. Otherwise
(`start`): since `created` is false, log "Container is already running". -/
def processEnterStartRunning (cli : DockerCli) (conf : Conf) (args : Args)
    (tmuxEnv : Option String) (attempts : Attempts) : Except Err FinalOp :=
  if args.action = "enter" then
    let cmdOrErr : Except Err (List String) :=
      if (args.tmux || args.tmuxControl) && tmuxEnv = none then
        let cmd := ["-t", "tmux", "-u", "-CC", "new-session", "-A", "-s", "ad-tmux"]
        .ok (if args.tmux then cmd.erase "-CC" else cmd)
      else if args.tmux || args.tmuxControl then
        .error (.aliDock ⟨"already in a tmux session"⟩)
      else
        .ok []
    match cmdOrErr with
    | .error e => .error e
    | .ok cmd =>
      match waitSshUp cli conf attempts with
      | .error e => .error e
      | .ok _ => shell cli conf cmd
  else if args.action = "exec" then
    match waitSshUp cli conf attempts with
    | .error e => .error e
    | .ok _ => shell cli conf (["-t"] ++ args.shellCmd)
  else if args.action = "root" then
    .ok (rootShell conf)
  else
    .ok .alreadyRunningInfo

/-! ## Stateful view of the daemon for `stop` and `status` -/

/-- The Docker daemon's mutable container table, keyed by name. -/
structure RuntimeState where
  containers : List (String × Container)
deriving DecidableEq, Repr

/-- Name lookup in the daemon's container table. -/
def containerLookup (l : List (String × Container)) (name : String) :
    Option Container :=
  match l with
  | [] => none
  | (n, c) :: rest => if n = name then some c else containerLookup rest name

/-- `self.cli.containers.get(name)` against the stateful daemon view:
`NotFound` exactly when no container of that name exists. -/
def containersGet (rt : RuntimeState) (name : String) :
    Except DockerError Container :=
  match containerLookup rt.containers name with
  | some c => .ok c
  | none => .error .notFound

/-- `.remove(force=True)`: the container disappears from the daemon. -/
def removeForce (rt : RuntimeState) (name : String) : RuntimeState :=
  ⟨rt.containers.filter (fun p => p.1 ≠ name)⟩

/-- `AliDock.stop`: force-remove the named container; `NotFound` is passed
over (`pass  # final state is fine, container is gone`). Returns the new
daemon state; no error is ever produced. -/
def stop (rt : RuntimeState) (name : String) :
    Except DockerError RuntimeState :=
  match containersGet rt name with
  | .ok _ => .ok (removeForce rt name)
  | .error .notFound => .ok rt
  | .error e => .error e

/-- `isRunning` against the stateful daemon view. -/
def isRunningS (rt : RuntimeState) (name : String) : Bool :=
  match containersGet rt name with
  | .error .notFound => false
  | _ => true

/-- How a dispatcher action ends at the process level. -/
inductive ProcOutcome where
  | exited (code : Nat)
deriving DecidableEq, Repr

/-- `processStatus`: `exit(0)` when `isRunning()`, else `exit(1)`; it calls
nothing else, so the daemon state it leaves behind is returned unchanged. -/
def processStatus (rt : RuntimeState) (name : String) :
    ProcOutcome × RuntimeState :=
  if isRunningS rt name then (.exited 0, rt) else (.exited 1, rt)

/-! ## Theorems about the update checker -/

/-- C2: a missing or unparseable state file is read as `lastCheck = 0`;
when `now - lastCheck ≤ period` the check function is not invoked and the
call returns `False` leaving the file alone; when `now - lastCheck >
period` the check function is invoked exactly once. -/
theorem hasUpdates_debounce_spec (file : FileContent) (s : String)
    (now period : Int) (nag : Bool) (uf : Except AliDockError Bool) :
    readTimestamp FileContent.missing = 0
    ∧ readTimestamp (FileContent.unparseable s) = 0
    ∧ (hasUpdates file now period nag uf).checkInvocations
        = (if now - readTimestamp file > period then 1 else 0)
    ∧ (if now - readTimestamp file > period then True
        else hasUpdates file now period nag uf = ⟨file, Except.ok false, 0⟩) := by
  refine ⟨rfl, rfl, ?_, ?_⟩
  · by_cases h : now - readTimestamp file > period
    · cases uf <;> simp [hasUpdates, h]
    · simp [hasUpdates, h]
  · by_cases h : now - readTimestamp file > period
    · simp [h]
    · simp [hasUpdates, h]

/-- C1 (as stated) is false of the code: with `nagOnUpdate = true`, an
elapsed debounce period, and the check returning `False` without raising,
the timestamp file is NOT rewritten with the current time. Concretely,
with the file holding timestamp 0, `now = 100` and `period = 10`, the file
still holds 0 after the call. -/
theorem hasUpdates_nag_rewrite_counterexample :
    ¬ ((hasUpdates (FileContent.timestamp 0) 100 10 true
        (Except.ok false)).newFile = FileContent.timestamp 100)
    ∧ (hasUpdates (FileContent.timestamp 0) 100 10 true
        (Except.ok false)).newFile = FileContent.timestamp 0 := by
  constructor
  · decide
  · decide

/-- C1 (amended): with `nagOnUpdate = true`, an elapsed debounce period,
and the check running and finding no update (returning `False` without
raising), the timestamp file keeps its prior content — the rewrite with
`now` happens only when `nagOnUpdate` is false. The call itself returns
`False` after invoking the check once. -/
theorem hasUpdates_nag_noUpdate_file_unchanged (file : FileContent)
    (now period : Int) (h : now - readTimestamp file > period) :
    hasUpdates file now period true (Except.ok false)
      = ⟨file, Except.ok false, 1⟩ := by
  simp [hasUpdates, h]

/-- Witness for `hasUpdates_nag_noUpdate_file_unchanged` at a concrete
input. -/
theorem hasUpdates_nag_noUpdate_file_unchanged_witness :
    hasUpdates (FileContent.timestamp 0) 100 10 true (Except.ok false)
      = ⟨FileContent.timestamp 0, Except.ok false, 1⟩ :=
  hasUpdates_nag_noUpdate_file_unchanged (FileContent.timestamp 0) 100 10
    (by decide)

/-- C4: when the check function raises (an `AliDockError`), the failure is
captured, the persistence decision is applied first — with `nagOnUpdate =
false` the file is rewritten with `now` even though the check failed, with
`nagOnUpdate = true` it is left alone — and the captured failure is then
re-raised to the caller. -/
theorem hasUpdates_reraise_after_persist (file : FileContent)
    (now period : Int) (nag : Bool) (e : AliDockError)
    (h : now - readTimestamp file > period) :
    hasUpdates file now period nag (Except.error e)
      = ⟨if nag then file else FileContent.timestamp now, Except.error e, 1⟩ := by
  cases nag <;> simp [hasUpdates, h]

/-- Witness for `hasUpdates_reraise_after_persist`: with `nagOnUpdate =
false` the file ends up holding `now = 100` and the error is re-raised. -/
theorem hasUpdates_reraise_after_persist_witness :
    hasUpdates FileContent.missing 100 10 false (Except.error ⟨"boom"⟩)
      = ⟨FileContent.timestamp 100, Except.error ⟨"boom"⟩, 1⟩ := by
  simpa using
    hasUpdates_reraise_after_persist FileContent.missing 100 10 false ⟨"boom"⟩
      (by decide)

/-- C5: with `nagOnUpdate = true` and the check reporting an update, the
timestamp file is left unchanged, so a later call in the same epoch (its
`now` still past the persisted timestamp plus the period) invokes the
check again. -/
theorem hasUpdates_nag_updateFound_preserved (file : FileContent)
    (now₁ now₂ period : Int)
    (h₁ : now₁ - readTimestamp file > period)
    (h₂ : now₂ - readTimestamp file > period) :
    hasUpdates file now₁ period true (Except.ok true)
      = ⟨file, Except.ok true, 1⟩
    ∧ (hasUpdates (hasUpdates file now₁ period true (Except.ok true)).newFile
        now₂ period true (Except.ok true)).checkInvocations = 1 := by
  have h : hasUpdates file now₁ period true (Except.ok true)
      = ⟨file, Except.ok true, 1⟩ := by
    simp [hasUpdates, h₁]
  refine ⟨h, ?_⟩
  rw [h]
  simp [hasUpdates, h₂]

/-- Witness for `hasUpdates_nag_updateFound_preserved` at a concrete
input. -/
theorem hasUpdates_nag_updateFound_preserved_witness :
    hasUpdates (FileContent.timestamp 5) 100 10 true (Except.ok true)
      = ⟨FileContent.timestamp 5, Except.ok true, 1⟩
    ∧ (hasUpdates
        (hasUpdates (FileContent.timestamp 5) 100 10 true (Except.ok true)).newFile
        200 10 true (Except.ok true)).checkInvocations = 1 :=
  hasUpdates_nag_updateFound_preserved (FileContent.timestamp 5) 100 200 10
    (by decide) (by decide)

/-! ## Theorems about the config resolver -/

/-- C6: for every configuration key, a present (non-null) value in the
caller-supplied override replaces the value layered from the built-in
defaults and the config file, and a null/absent override value never does;
the record built from the CLI entrypoint's parsed arguments behaves the
same way (its `store_true` flag is always present, its other keys default
to null). -/
theorem overrideConfig_spec (file : ConfFile) (o : OverrideConf) (a : CliArgs) :
    overrideConfig (parseConfig defaultConf file) none
      = parseConfig defaultConf file
    ∧ (∀ v, o.dockName = some v →
        (overrideConfig (parseConfig defaultConf file) (some o)).dockName = v)
    ∧ (o.dockName = none →
        (overrideConfig (parseConfig defaultConf file) (some o)).dockName
          = (parseConfig defaultConf file).dockName)
    ∧ (∀ v, o.imageName = some v →
        (overrideConfig (parseConfig defaultConf file) (some o)).imageName = v)
    ∧ (o.imageName = none →
        (overrideConfig (parseConfig defaultConf file) (some o)).imageName
          = (parseConfig defaultConf file).imageName)
    ∧ (∀ v, o.dirOutside = some v →
        (overrideConfig (parseConfig defaultConf file) (some o)).dirOutside = v)
    ∧ (o.dirOutside = none →
        (overrideConfig (parseConfig defaultConf file) (some o)).dirOutside
          = (parseConfig defaultConf file).dirOutside)
    ∧ (∀ v, o.updatePeriod = some v →
        (overrideConfig (parseConfig defaultConf file) (some o)).updatePeriod = v)
    ∧ (o.updatePeriod = none →
        (overrideConfig (parseConfig defaultConf file) (some o)).updatePeriod
          = (parseConfig defaultConf file).updatePeriod)
    ∧ (∀ v, o.dontUpdateImage = some v →
        (overrideConfig (parseConfig defaultConf file) (some o)).dontUpdateImage = v)
    ∧ (o.dontUpdateImage = none →
        (overrideConfig (parseConfig defaultConf file) (some o)).dontUpdateImage
          = (parseConfig defaultConf file).dontUpdateImage)
    ∧ ((overrideConfig (parseConfig defaultConf file)
          (some (cliOverride a))).dontUpdateImage = a.dontUpdateImage)
    ∧ (∀ v, a.dockName = some v →
        (overrideConfig (parseConfig defaultConf file)
          (some (cliOverride a))).dockName = v)
    ∧ (a.dockName = none →
        (overrideConfig (parseConfig defaultConf file)
          (some (cliOverride a))).dockName
          = (parseConfig defaultConf file).dockName) := by
  refine ⟨rfl, ?_, ?_, ?_, ?_, ?_, ?_, ?_, ?_, ?_, ?_, ?_, ?_, ?_⟩ <;>
    first
      | (intro v hv; simp [overrideConfig, cliOverride, hv])
      | (intro hv; simp [overrideConfig, cliOverride, hv])
      | simp [overrideConfig, cliOverride]

/-- Witness for `overrideConfig_spec` at concrete inputs: a present
override value wins, an absent one leaves the file/default value, and the
CLI record's always-present boolean wins. -/
theorem overrideConfig_spec_witness :
    (overrideConfig (parseConfig defaultConf ConfFile.unreadable)
      (some ⟨some "mine", none, none, none, none⟩)).dockName = "mine"
    ∧ (overrideConfig (parseConfig defaultConf ConfFile.unreadable)
      (some ⟨some "mine", none, none, none, none⟩)).imageName
        = (parseConfig defaultConf ConfFile.unreadable).imageName
    ∧ (overrideConfig (parseConfig defaultConf ConfFile.unreadable)
      (some (cliOverride ⟨none, none, none, none, false⟩))).dontUpdateImage
        = false := by
  obtain ⟨-, h2, -, -, h5, -, -, -, -, -, -, h12, -, -⟩ :=
    overrideConfig_spec ConfFile.unreadable
      ⟨some "mine", none, none, none, none⟩ ⟨none, none, none, none, false⟩
  exact ⟨h2 "mine" rfl, h5 rfl, h12⟩

/-! ## Theorems about the lifecycle controller and dispatcher -/

/-- C7: `isRunning` is true exactly when the runtime holds a container of
the configured name, false exactly on a "not found" answer, and any other
runtime error kind propagates unchanged. -/
theorem isRunning_spec (cli : DockerCli) (name : String) :
    (∀ c, cli name = Except.ok c → isRunning cli name = Except.ok true)
    ∧ (isRunning cli name = Except.ok true → ∃ c, cli name = Except.ok c)
    ∧ (cli name = Except.error DockerError.notFound →
        isRunning cli name = Except.ok false)
    ∧ (∀ e, e ≠ DockerError.notFound → cli name = Except.error e →
        isRunning cli name = Except.error e) := by
  refine ⟨?_, ?_, ?_, ?_⟩
  · intro c hc
    simp [isRunning, hc]
  · intro h
    cases hc : cli name with
    | ok c => exact ⟨c, rfl⟩
    | error e => cases e <;> simp [isRunning, hc] at h
  · intro h
    simp [isRunning, h]
  · intro e he hc
    cases e with
    | notFound => exact absurd rfl he
    | apiError m => simp [isRunning, hc]
    | requestError m => simp [isRunning, hc]

/-- Witness for `isRunning_spec` on three concrete daemon answers. -/
theorem isRunning_spec_witness :
    isRunning (fun _ => Except.ok ⟨some "2222"⟩) "alidock-0" = Except.ok true
    ∧ isRunning (fun _ => Except.error DockerError.notFound) "alidock-0"
        = Except.ok false
    ∧ isRunning (fun _ => Except.error (DockerError.apiError "boom")) "alidock-0"
        = Except.error (DockerError.apiError "boom") := by
  refine ⟨?_, ?_, ?_⟩
  · exact (isRunning_spec (fun _ => Except.ok ⟨some "2222"⟩) "alidock-0").1
      ⟨some "2222"⟩ rfl
  · exact (isRunning_spec (fun _ => Except.error DockerError.notFound)
      "alidock-0").2.2.1 rfl
  · exact (isRunning_spec (fun _ => Except.error (DockerError.apiError "boom"))
      "alidock-0").2.2.2 (DockerError.apiError "boom") (by simp) rfl

/-- C3: `getSshCommand` fails with an `AliDockError` whose message contains
the container log file path whenever the container is absent or has no
`22/tcp` port mapping; otherwise it returns the fixed SSH argv: localhost
on the resolved port, host-key checking and known-hosts persistence
disabled, `-Y` (trusted X11 forwarding) with a 596-hour X11 timeout, and
the private key at `<dirOutside>/.ssh/id_rsa`. -/
theorem getSshCommand_spec (cli : DockerCli) (conf : Conf) :
    (cli conf.dockName = Except.error DockerError.notFound →
      ∃ m, getSshCommand cli conf = Except.error (Err.aliDock ⟨m⟩)
        ∧ ∃ pre post, m = pre ++ (pathJoin conf.dirOutside logRelative ++ post))
    ∧ (∀ c, cli conf.dockName = Except.ok c → c.sshHostPort = none →
      ∃ m, getSshCommand cli conf = Except.error (Err.aliDock ⟨m⟩)
        ∧ ∃ pre post, m = pre ++ (pathJoin conf.dirOutside logRelative ++ post))
    ∧ (∀ c port, cli conf.dockName = Except.ok c → c.sshHostPort = some port →
      getSshCommand cli conf
        = Except.ok ["ssh", "localhost", "-p", port, "-Y", "-F/dev/null",
            "-oForwardX11Trusted=no", "-oUserKnownHostsFile=/dev/null",
            "-oLogLevel=QUIET", "-oStrictHostKeyChecking=no",
            "-oForwardX11Timeout=596h",
            "-i", pathJoin (pathJoin conf.dirOutside ".ssh") "id_rsa"]) := by
  refine ⟨?_, ?_, ?_⟩
  · intro h
    refine ⟨sshUnavailableMsg conf DockerError.notFound.str, ?_,
      "cannot find container, maybe it did not start up properly: check log file ",
      " for details. Error: " ++ DockerError.notFound.str, rfl⟩
    simp [getSshCommand, h]
  · intro c hc hp
    refine ⟨sshUnavailableMsg conf "\x272\x32/tcp\x27", ?_,
      "cannot find container, maybe it did not start up properly: check log file ",
      " for details. Error: " ++ "\x272\x32/tcp\x27", rfl⟩
    simp [getSshCommand, hc, hp]
  · intro c port hc hp
    simp [getSshCommand, sshArgv, hc, hp]

/-- Witness for `getSshCommand_spec` on a concrete running container. -/
theorem getSshCommand_spec_witness :
    getSshCommand (fun _ => Except.ok ⟨some "2222"⟩) defaultConf
      = Except.ok ["ssh", "localhost", "-p", "2222", "-Y", "-F/dev/null",
          "-oForwardX11Trusted=no", "-oUserKnownHostsFile=/dev/null",
          "-oLogLevel=QUIET", "-oStrictHostKeyChecking=no",
          "-oForwardX11Timeout=596h",
          "-i", pathJoin (pathJoin defaultConf.dirOutside ".ssh") "id_rsa"] :=
  (getSshCommand_spec (fun _ => Except.ok ⟨some "2222"⟩) defaultConf).2.2
    ⟨some "2222"⟩ "2222" rfl rfl

/-- After a forced removal, the daemon no longer holds a container of that
name. -/
theorem containerLookup_removeForce (rt : RuntimeState) (name : String) :
    containerLookup (removeForce rt name).containers name = none := by
  obtain ⟨l⟩ := rt
  induction l with
  | nil => rfl
  | cons p rest ih =>
    obtain ⟨n, c⟩ := p
    by_cases h : n = name
    · simpa [removeForce, List.filter, h] using ih
    · simpa [removeForce, List.filter, containerLookup, h] using ih

/-- C8: `stop` never errors: it removes the named container when present,
and when the container is already absent — including on a second call in a
row — it succeeds leaving the daemon untouched. -/
theorem stop_spec (rt : RuntimeState) (name : String) :
    (∃ rt2, stop rt name = Except.ok rt2
      ∧ containerLookup rt2.containers name = none
      ∧ stop rt2 name = Except.ok rt2)
    ∧ (containerLookup rt.containers name = none →
        stop rt name = Except.ok rt) := by
  have hAbsent : ∀ r : RuntimeState, containerLookup r.containers name = none →
      stop r name = Except.ok r := by
    intro r hr
    simp [stop, containersGet, hr]
  constructor
  · cases hl : containerLookup rt.containers name with
    | none => exact ⟨rt, hAbsent rt hl, hl, hAbsent rt hl⟩
    | some c =>
      refine ⟨removeForce rt name, ?_,
        containerLookup_removeForce rt name,
        hAbsent _ (containerLookup_removeForce rt name)⟩
      simp [stop, containersGet, hl]
  · exact hAbsent rt

/-- Witness for `stop_spec`: stopping with no container present succeeds
and leaves the empty daemon state as it is. -/
theorem stop_spec_witness :
    stop ⟨[]⟩ "alidock-0" = Except.ok ⟨[]⟩ :=
  (stop_spec ⟨[]⟩ "alidock-0").2 rfl

/-- C9: the `status` action exits with code 0 when the container is
running, exits with code 1 when it is absent, and leaves the daemon's
container table unchanged in both cases (no container is created). -/
theorem processStatus_spec (rt : RuntimeState) (name : String) :
    ((containerLookup rt.containers name).isSome →
      processStatus rt name = (ProcOutcome.exited 0, rt))
    ∧ (containerLookup rt.containers name = none →
      processStatus rt name = (ProcOutcome.exited 1, rt))
    ∧ (processStatus rt name).2 = rt := by
  refine ⟨?_, ?_, ?_⟩
  · intro h
    cases hl : containerLookup rt.containers name with
    | none => rw [hl] at h; simp at h
    | some c => simp [processStatus, isRunningS, containersGet, hl]
  · intro h
    simp [processStatus, isRunningS, containersGet, h]
  · unfold processStatus
    split <;> rfl

/-- Witness for `processStatus_spec`: a present container gives exit code
0, an absent one gives exit code 1, with the daemon state untouched. -/
theorem processStatus_spec_witness :
    processStatus ⟨[("alidock-0", ⟨some "2222"⟩)]⟩ "alidock-0"
      = (ProcOutcome.exited 0, ⟨[("alidock-0", ⟨some "2222"⟩)]⟩)
    ∧ processStatus ⟨[]⟩ "alidock-0" = (ProcOutcome.exited 1, ⟨[]⟩) :=
  ⟨(processStatus_spec ⟨[("alidock-0", ⟨some "2222"⟩)]⟩ "alidock-0").1 rfl,
   (processStatus_spec ⟨[]⟩ "alidock-0").2.1 rfl⟩

/-- When every SSH probe fails and the SSH command resolves, the readiness
loop runs through its whole fuel, making one attempt per unit of fuel, and
reports failure. -/
theorem waitSshUpLoop_allFail (cli : DockerCli) (conf : Conf)
    (attempts : Attempts) (argv : List String)
    (hok : getSshCommand cli conf = Except.ok argv)
    (hfail : ∀ j, attempts j = false) :
    ∀ fuel i, waitSshUpLoop cli conf attempts i fuel = Except.ok (false, fuel) := by
  intro fuel
  induction fuel with
  | zero => intro i; rfl
  | succ n ih =>
    intro i
    simp [waitSshUpLoop, hok, hfail i, ih (i + 1)]

/-- The readiness loop never makes more attempts than it has fuel. -/
theorem waitSshUpLoop_count_le (cli : DockerCli) (conf : Conf)
    (att : Attempts) :
    ∀ fuel i b n, waitSshUpLoop cli conf att i fuel = Except.ok (b, n) →
      n ≤ fuel := by
  intro fuel
  induction fuel with
  | zero =>
    intro i b n h
    simp [waitSshUpLoop] at h
    omega
  | succ m ih =>
    intro i b n h
    rw [waitSshUpLoop] at h
    cases hg : getSshCommand cli conf with
    | error e => simp [hg] at h
    | ok argv =>
      cases ha : att i with
      | true =>
        simp [hg, ha] at h
        omega
      | false =>
        cases hrec : waitSshUpLoop cli conf att (i + 1) m with
        | error e => simp [hg, ha, hrec] at h
        | ok p =>
          obtain ⟨b2, n2⟩ := p
          simp [hg, ha, hrec] at h
          have := ih (i + 1) b2 n2 hrec
          omega

/-- C10: for the `enter` and `exec` actions the dispatcher discards the
boolean result of `waitSshUp`: even when every one of the (at most 40)
SSH-readiness probes fails, the call still ends by replacing the process
with the SSH command, not with an error. -/
theorem enterExec_ignores_waitSshUp (cli : DockerCli) (conf : Conf)
    (c : Container) (port : String) (shellCmd : List String)
    (tmuxEnv : Option String) (attempts : Attempts)
    (hget : cli conf.dockName = Except.ok c)
    (hport : c.sshHostPort = some port)
    (hfail : ∀ i, attempts i = false) :
    waitSshUp cli conf attempts = Except.ok (false, 40)
    ∧ processEnterStartRunning cli conf ⟨"enter", false, false, shellCmd⟩
        tmuxEnv attempts
        = Except.ok (FinalOp.execReplace "ssh" (sshArgv conf port))
    ∧ processEnterStartRunning cli conf ⟨"exec", false, false, shellCmd⟩
        tmuxEnv attempts
        = Except.ok (FinalOp.execReplace "ssh"
            (sshArgv conf port ++ (["-t"] ++ shellCmd)))
    ∧ (∀ att : Attempts, ∀ b n,
        waitSshUp cli conf att = Except.ok (b, n) → n ≤ 40) := by
  have hok : getSshCommand cli conf = Except.ok (sshArgv conf port) := by
    simp [getSshCommand, hget, hport]
  have hwait : waitSshUp cli conf attempts = Except.ok (false, 40) :=
    waitSshUpLoop_allFail cli conf attempts _ hok hfail 40 0
  refine ⟨hwait, ?_, ?_, ?_⟩
  · simp [processEnterStartRunning, waitSshUp] at hwait ⊢
    simp [hwait, shell, hok]
  · simp [processEnterStartRunning, waitSshUp] at hwait ⊢
    simp [hwait, shell, hok]
  · intro att b n h
    exact waitSshUpLoop_count_le cli conf att 40 0 b n h

/-- Witness for `enterExec_ignores_waitSshUp`: with a resolvable port and
every probe failing, `enter` and `exec` still hand the process to SSH. -/
theorem enterExec_ignores_waitSshUp_witness :
    waitSshUp (fun _ => Except.ok ⟨some "2222"⟩) defaultConf (fun _ => false)
      = Except.ok (false, 40)
    ∧ processEnterStartRunning (fun _ => Except.ok ⟨some "2222"⟩) defaultConf
        ⟨"enter", false, false, []⟩ none (fun _ => false)
      = Except.ok (FinalOp.execReplace "ssh" (sshArgv defaultConf "2222"))
    ∧ processEnterStartRunning (fun _ => Except.ok ⟨some "2222"⟩) defaultConf
        ⟨"exec", false, false, []⟩ none (fun _ => false)
      = Except.ok (FinalOp.execReplace "ssh"
          (sshArgv defaultConf "2222" ++ (["-t"] ++ []))) := by
  have h := enterExec_ignores_waitSshUp (fun _ => Except.ok ⟨some "2222"⟩)
    defaultConf ⟨some "2222"⟩ "2222" [] none (fun _ => false)
    rfl rfl (fun _ => rfl)
  exact ⟨h.1, h.2.1, h.2.2.1⟩

end Alidock
